import Mathlib

/-
Verification of the streaming response protocol layer of the dify-client
library (a Rust HTTP client for the Dify AI service).

The embedding models:
  * the JSON value space and the serde deserialization of the tagged
    `SseMessageEvent` union (src/dify-client/src/response.rs);
  * the SSE message-event stream adapter `SseMessageEventStream::poll_next`
    (src/dify-client/src/response.rs);
  * the streaming driver loop shared by `chat_messages_stream`,
    `workflows_run_stream` and `completion_messages_stream`
    (src/dify-client/src/api.rs);
  * the response reconciler `parse_response` / `parse_error_response`
    (src/dify-client/src/response.rs);
  * the validated endpoints `stream_task_stop`, `conversations_renaming`
    and `conversations_delete` (src/dify-client/src/api.rs), with the
    HTTP transport modelled as an explicit function argument and the
    issued requests recorded in a trace list.

Modelling conventions:
  * JSON numbers are modelled as integers (no claim involves fractional
    values); JSON objects are association lists in document order.
  * Response/frame body text is modelled at the JSON value level: a body
    is either a JSON value or an unparseable text (`JsonText.malformed`).
  * `anyhow` error values are modelled structurally: a `bail!` with a
    format string becomes a constructor carrying the formatted pieces.
-/

namespace Dify

/-! ## JSON value model -/

/-- A JSON value (`serde_json::Value`).  Numbers are modelled as integers;
objects are association lists in document order. -/
inductive Json where
  | null
  | bool (b : Bool)
  | num (n : Int)
  | str (s : String)
  | arr (xs : List Json)
  | obj (fields : List (String × Json))

/-- Fields of a JSON object. -/
abbrev JObj := List (String × Json)

mutual

/-- Serialize a JSON value back to text (used to model the raw body text
of a response whose JSON shape is known). -/
def Json.render : Json → String
  | .null => "null"
  | .bool b => cond b "true" "false"
  | .num n => toString n
  | .str s => "\"" ++ s ++ "\""
  | .arr xs => "[" ++ Json.renderArr xs ++ "]"
  | .obj fs => "\x7b" ++ Json.renderObj fs ++ "\x7d"

/-- Render the elements of a JSON array, comma separated. -/
def Json.renderArr : List Json → String
  | [] => ""
  | [x] => Json.render x
  | x :: xs => Json.render x ++ "," ++ Json.renderArr xs

/-- Render the fields of a JSON object, comma separated. -/
def Json.renderObj : List (String × Json) → String
  | [] => ""
  | [(k, v)] => "\"" ++ k ++ "\":" ++ Json.render v
  | (k, v) :: fs => "\"" ++ k ++ "\":" ++ Json.render v ++ "," ++ Json.renderObj fs

end

/-- A piece of text that is fed to `serde_json::from_str`: either it parses
as a JSON value, or it is not valid JSON at all. -/
inductive JsonText where
  | val (j : Json)
  | malformed (s : String)

/-- The raw text underlying a `JsonText`. -/
def JsonText.raw : JsonText → String
  | .val j => j.render
  | .malformed s => s

/-- Look a key up in a JSON object (first occurrence, document order). -/
def jlookup (fs : JObj) (k : String) : Option Json :=
  List.lookup k fs

/-- Drop every field whose key is in `ks` (the fields consumed by named
struct fields or by a flattened struct in serde's generated code). -/
def removeKeys (fs : JObj) (ks : List String) : JObj :=
  fs.filter (fun kv => !(ks.contains kv.1))

/-! ### serde field accessors

These mirror how serde's derived deserializers read individual fields:
a required `String` field errors when missing or of the wrong type, an
`Option` field treats both absence and `null` as `None`, and unsigned
integer fields check the `u32`/`u64` range. -/

/-- Required `String` field. -/
def getStr (fs : JObj) (k : String) : Except String String :=
  match jlookup fs k with
  | some (.str s) => .ok s
  | some _ => .error ("invalid type for field " ++ k)
  | none => .error ("missing field " ++ k)

/-- `Option<String>` field: missing or `null` is `None`. -/
def getOptStr (fs : JObj) (k : String) : Except String (Option String) :=
  match jlookup fs k with
  | some (.str s) => .ok (some s)
  | some .null => .ok none
  | some _ => .error ("invalid type for field " ++ k)
  | none => .ok none

/-- Required `u64` field. -/
def getU64 (fs : JObj) (k : String) : Except String Nat :=
  match jlookup fs k with
  | some (.num n) =>
      if 0 ≤ n ∧ n < 18446744073709551616 then .ok n.toNat
      else .error ("invalid value for field " ++ k)
  | some _ => .error ("invalid type for field " ++ k)
  | none => .error ("missing field " ++ k)

/-- Required `u32` field. -/
def getU32 (fs : JObj) (k : String) : Except String Nat :=
  match jlookup fs k with
  | some (.num n) =>
      if 0 ≤ n ∧ n < 4294967296 then .ok n.toNat
      else .error ("invalid value for field " ++ k)
  | some _ => .error ("invalid type for field " ++ k)
  | none => .error ("missing field " ++ k)

/-- `Option<u32>` field: missing or `null` is `None`. -/
def getOptU32 (fs : JObj) (k : String) : Except String (Option Nat) :=
  match jlookup fs k with
  | some (.num n) =>
      if 0 ≤ n ∧ n < 4294967296 then .ok (some n.toNat)
      else .error ("invalid value for field " ++ k)
  | some .null => .ok none
  | some _ => .error ("invalid type for field " ++ k)
  | none => .ok none

/-- `Option<f64>` field (numbers are modelled as integers): missing or
`null` is `None`. -/
def getOptNum (fs : JObj) (k : String) : Except String (Option Int) :=
  match jlookup fs k with
  | some (.num n) => .ok (some n)
  | some .null => .ok none
  | some _ => .error ("invalid type for field " ++ k)
  | none => .ok none

/-- Required `serde_json::Value` field (accepts any JSON value, including
`null`, but errors when the field is absent). -/
def getAny (fs : JObj) (k : String) : Except String Json :=
  match jlookup fs k with
  | some v => .ok v
  | none => .error ("missing field " ++ k)

/-- `Option<serde_json::Value>` field: missing or `null` is `None`. -/
def getOptAny (fs : JObj) (k : String) : Except String (Option Json) :=
  match jlookup fs k with
  | some .null => .ok none
  | some v => .ok (some v)
  | none => .ok none

/-- Required `HashMap<String, Value>` field (must be a JSON object). -/
def getMap (fs : JObj) (k : String) : Except String JObj :=
  match jlookup fs k with
  | some (.obj m) => .ok m
  | some _ => .error ("invalid type for field " ++ k)
  | none => .error ("missing field " ++ k)

/-- Required `Vec<String>` field (must be an array of strings). -/
def getStrList (fs : JObj) (k : String) : Except String (List String) :=
  match jlookup fs k with
  | some (.arr xs) =>
      xs.foldr
        (fun x acc =>
          match x, acc with
          | .str s, .ok l => .ok (s :: l)
          | _, .ok _ => .error ("invalid type for field " ++ k)
          | _, .error e => .error e)
        (.ok [])
  | some _ => .error ("invalid type for field " ++ k)
  | none => .error ("missing field " ++ k)

/-! ## Stream event data model (src/dify-client/src/response.rs) -/

/-- `MessageBase`: message id, conversation id and creation timestamp. -/
structure MessageBase where
  message_id : String
  conversation_id : Option String
  created_at : Nat

/-- `FileType` (`rename_all = "snake_case"`; single variant `image`). -/
inductive FileType where
  | Image

/-- `BelongsTo` (`rename_all = "snake_case"`). -/
inductive BelongsTo where
  | User
  | Assistant

/-- `FinishedStatus` (`rename_all = "snake_case"`). -/
inductive FinishedStatus where
  | Running
  | Succeeded
  | Failed
  | Stopped

/-- `ExecutionMetadata`: all fields optional. -/
structure ExecutionMetadata where
  total_tokens : Option Nat
  total_price : Option String
  currency : Option String

/-- `WorkflowStartedData`. -/
structure WorkflowStartedData where
  id : String
  workflow_id : String
  sequence_number : Nat
  inputs : Json
  created_at : Nat

/-- `WorkflowFinishedData` (carries a flattened `extra` map). -/
structure WorkflowFinishedData where
  id : String
  workflow_id : String
  status : FinishedStatus
  outputs : Option Json
  error : Option String
  elapsed_time : Option Int
  total_tokens : Option Nat
  total_steps : Nat
  created_at : Nat
  finished_at : Nat
  extra : JObj

/-- `NodeStartedData`. -/
structure NodeStartedData where
  id : String
  node_id : String
  node_type : String
  title : String
  index : Nat
  predecessor_node_id : Option String
  inputs : Option Json
  created_at : Nat

/-- `NodeFinishedData` (carries a flattened `extra` map). -/
structure NodeFinishedData where
  id : String
  node_id : String
  index : Nat
  predecessor_node_id : Option String
  inputs : Option Json
  process_data : Option Json
  outputs : Option Json
  status : FinishedStatus
  error : Option String
  elapsed_time : Option Int
  execution_metadata : Option ExecutionMetadata
  created_at : Nat
  extra : JObj

/-- `SseMessageEvent`: the tagged stream-event union, internally tagged on
the `event` key with `rename_all = "snake_case"`. -/
inductive SseMessageEvent where
  | Message (base : Option MessageBase) (id : String) (task_id : String)
      (answer : String) (extra : JObj)
  | MessageFile (base : Option MessageBase) (id : String) (type_ : FileType)
      (belongs_to : BelongsTo) (url : String) (extra : JObj)
  | MessageEnd (base : Option MessageBase) (id : String) (task_id : String)
      (metadata : JObj) (extra : JObj)
  | MessageReplace (base : Option MessageBase) (task_id : String)
      (answer : String) (extra : JObj)
  | WorkflowStarted (base : Option MessageBase) (task_id : String)
      (workflow_run_id : String) (data : WorkflowStartedData) (extra : JObj)
  | NodeStarted (base : Option MessageBase) (task_id : String)
      (workflow_run_id : String) (data : NodeStartedData) (extra : JObj)
  | NodeFinished (base : Option MessageBase) (task_id : String)
      (workflow_run_id : String) (data : NodeFinishedData) (extra : JObj)
  | WorkflowFinished (base : Option MessageBase) (task_id : String)
      (workflow_run_id : String) (data : WorkflowFinishedData) (extra : JObj)
  | AgentMessage (base : Option MessageBase) (id : String) (task_id : String)
      (answer : String) (extra : JObj)
  | AgentThought (base : Option MessageBase) (id : String) (task_id : String)
      (position : Nat) (thought : String) (observation : String)
      (tool : String) (tool_labels : Json) (tool_input : String)
      (message_files : List String)
  | Error (base : Option MessageBase) (status : Nat) (code : String)
      (message : String) (extra : JObj)
  | Ping

/-! ## Deserialization of `SseMessageEvent`

serde's derived deserializer for an internally tagged enum reads the
`event` tag, removes it from the content, and deserializes the selected
variant from the remaining fields.  Inside a variant, named fields are
consumed first and every other field is collected; the flattened
`base : Option<MessageBase>` is then deserialized from the collected
leftover: it is `None` exactly when no leftover fields remain, and
otherwise `MessageBase` is deserialized from the leftover (failing hard
when `message_id` or `created_at` is missing).  A flattened
`extra : HashMap<String, Value>` finally captures the leftover fields not
consumed by `MessageBase`. -/

/-- Keys of the flattened `MessageBase` struct. -/
def messageBaseKeys : List String := ["message_id", "conversation_id", "created_at"]

/-- Deserialize `MessageBase` from leftover (flattened) fields. -/
def parseMessageBase (fs : JObj) : Except String MessageBase := do
  let mid ← getStr fs "message_id"
  let cid ← getOptStr fs "conversation_id"
  let cat ← getU64 fs "created_at"
  .ok ⟨mid, cid, cat⟩

/-- Flattened `Option<MessageBase>`: `None` exactly when no leftover
fields remain (serde's `FlatMapDeserializer::deserialize_option`),
otherwise a hard `MessageBase` deserialization of the leftover. -/
def parseOptBase (collect : JObj) : Except String (Option MessageBase) :=
  if collect.isEmpty then .ok none
  else (parseMessageBase collect).map some

/-- `FileType` from a JSON value. -/
def parseFileType (j : Json) : Except String FileType :=
  match j with
  | .str s => if s = "image" then .ok .Image else .error ("unknown variant " ++ s)
  | _ => .error "invalid type for FileType"

/-- `BelongsTo` from a JSON value. -/
def parseBelongsTo (j : Json) : Except String BelongsTo :=
  match j with
  | .str s =>
      if s = "user" then .ok .User
      else if s = "assistant" then .ok .Assistant
      else .error ("unknown variant " ++ s)
  | _ => .error "invalid type for BelongsTo"

/-- `FinishedStatus` from a JSON value. -/
def parseFinishedStatus (j : Json) : Except String FinishedStatus :=
  match j with
  | .str s =>
      if s = "running" then .ok .Running
      else if s = "succeeded" then .ok .Succeeded
      else if s = "failed" then .ok .Failed
      else if s = "stopped" then .ok .Stopped
      else .error ("unknown variant " ++ s)
  | _ => .error "invalid type for FinishedStatus"

/-- `ExecutionMetadata` from a JSON value (all fields optional, unknown
fields ignored). -/
def parseExecutionMetadata (j : Json) : Except String ExecutionMetadata :=
  match j with
  | .obj fs => do
      let tt ← getOptU32 fs "total_tokens"
      let tp ← getOptStr fs "total_price"
      let cu ← getOptStr fs "currency"
      .ok ⟨tt, tp, cu⟩
  | _ => .error "invalid type: expected a map"

/-- `Option<ExecutionMetadata>` field. -/
def getOptExecutionMetadata (fs : JObj) (k : String) :
    Except String (Option ExecutionMetadata) :=
  match jlookup fs k with
  | some .null => .ok none
  | some j => (parseExecutionMetadata j).map some
  | none => .ok none

/-- `WorkflowStartedData` from a JSON value (unknown fields ignored). -/
def parseWorkflowStartedData (j : Json) : Except String WorkflowStartedData :=
  match j with
  | .obj fs => do
      let id ← getStr fs "id"
      let wid ← getStr fs "workflow_id"
      let seq ← getU32 fs "sequence_number"
      let inputs ← getAny fs "inputs"
      let cat ← getU64 fs "created_at"
      .ok ⟨id, wid, seq, inputs, cat⟩
  | _ => .error "invalid type: expected a map"

/-- Named (non-flattened) fields of `WorkflowFinishedData`. -/
def workflowFinishedDataKeys : List String :=
  ["id", "workflow_id", "status", "outputs", "error", "elapsed_time",
   "total_tokens", "total_steps", "created_at", "finished_at"]

/-- `WorkflowFinishedData` from a JSON value (unknown fields are captured
by the flattened `extra` map). -/
def parseWorkflowFinishedData (j : Json) : Except String WorkflowFinishedData :=
  match j with
  | .obj fs => do
      let id ← getStr fs "id"
      let wid ← getStr fs "workflow_id"
      let status ← match jlookup fs "status" with
        | some v => parseFinishedStatus v
        | none => .error "missing field status"
      let outputs ← getOptAny fs "outputs"
      let err ← getOptStr fs "error"
      let et ← getOptNum fs "elapsed_time"
      let tt ← getOptU32 fs "total_tokens"
      let ts ← getU32 fs "total_steps"
      let cat ← getU64 fs "created_at"
      let fat ← getU64 fs "finished_at"
      .ok ⟨id, wid, status, outputs, err, et, tt, ts, cat, fat,
           removeKeys fs workflowFinishedDataKeys⟩
  | _ => .error "invalid type: expected a map"

/-- `NodeStartedData` from a JSON value (unknown fields ignored). -/
def parseNodeStartedData (j : Json) : Except String NodeStartedData :=
  match j with
  | .obj fs => do
      let id ← getStr fs "id"
      let nid ← getStr fs "node_id"
      let nty ← getStr fs "node_type"
      let title ← getStr fs "title"
      let index ← getU32 fs "index"
      let pred ← getOptStr fs "predecessor_node_id"
      let inputs ← getOptAny fs "inputs"
      let cat ← getU64 fs "created_at"
      .ok ⟨id, nid, nty, title, index, pred, inputs, cat⟩
  | _ => .error "invalid type: expected a map"

/-- Named (non-flattened) fields of `NodeFinishedData`. -/
def nodeFinishedDataKeys : List String :=
  ["id", "node_id", "index", "predecessor_node_id", "inputs",
   "process_data", "outputs", "status", "error", "elapsed_time",
   "execution_metadata", "created_at"]

/-- `NodeFinishedData` from a JSON value (unknown fields are captured by
the flattened `extra` map). -/
def parseNodeFinishedData (j : Json) : Except String NodeFinishedData :=
  match j with
  | .obj fs => do
      let id ← getStr fs "id"
      let nid ← getStr fs "node_id"
      let index ← getU32 fs "index"
      let pred ← getOptStr fs "predecessor_node_id"
      let inputs ← getOptAny fs "inputs"
      let pdata ← getOptAny fs "process_data"
      let outputs ← getOptAny fs "outputs"
      let status ← match jlookup fs "status" with
        | some v => parseFinishedStatus v
        | none => .error "missing field status"
      let err ← getOptStr fs "error"
      let et ← getOptNum fs "elapsed_time"
      let em ← getOptExecutionMetadata fs "execution_metadata"
      let cat ← getU64 fs "created_at"
      .ok ⟨id, nid, index, pred, inputs, pdata, outputs, status, err, et,
           em, cat, removeKeys fs nodeFinishedDataKeys⟩
  | _ => .error "invalid type: expected a map"

/-- The `message` variant: named fields `id`, `task_id`, `answer`, then
flattened `base` and `extra`. -/
def parseMessageVariant (content : JObj) : Except String SseMessageEvent := do
  let id ← getStr content "id"
  let tid ← getStr content "task_id"
  let ans ← getStr content "answer"
  let collect := removeKeys content ["id", "task_id", "answer"]
  let base ← parseOptBase collect
  .ok (.Message base id tid ans (removeKeys collect messageBaseKeys))

/-- The `message_file` variant. -/
def parseMessageFileVariant (content : JObj) : Except String SseMessageEvent := do
  let id ← getStr content "id"
  let ty ← match jlookup content "type" with
    | some v => parseFileType v
    | none => .error "missing field type"
  let bt ← match jlookup content "belongs_to" with
    | some v => parseBelongsTo v
    | none => .error "missing field belongs_to"
  let url ← getStr content "url"
  let collect := removeKeys content ["id", "type", "belongs_to", "url"]
  let base ← parseOptBase collect
  .ok (.MessageFile base id ty bt url (removeKeys collect messageBaseKeys))

/-- The `message_end` variant. -/
def parseMessageEndVariant (content : JObj) : Except String SseMessageEvent := do
  let id ← getStr content "id"
  let tid ← getStr content "task_id"
  let md ← getMap content "metadata"
  let collect := removeKeys content ["id", "task_id", "metadata"]
  let base ← parseOptBase collect
  .ok (.MessageEnd base id tid md (removeKeys collect messageBaseKeys))

/-- The `message_replace` variant. -/
def parseMessageReplaceVariant (content : JObj) : Except String SseMessageEvent := do
  let tid ← getStr content "task_id"
  let ans ← getStr content "answer"
  let collect := removeKeys content ["task_id", "answer"]
  let base ← parseOptBase collect
  .ok (.MessageReplace base tid ans (removeKeys collect messageBaseKeys))

/-- The `workflow_started` variant. -/
def parseWorkflowStartedVariant (content : JObj) : Except String SseMessageEvent := do
  let tid ← getStr content "task_id"
  let wrid ← getStr content "workflow_run_id"
  let data ← match jlookup content "data" with
    | some v => parseWorkflowStartedData v
    | none => .error "missing field data"
  let collect := removeKeys content ["task_id", "workflow_run_id", "data"]
  let base ← parseOptBase collect
  .ok (.WorkflowStarted base tid wrid data (removeKeys collect messageBaseKeys))

/-- The `node_started` variant. -/
def parseNodeStartedVariant (content : JObj) : Except String SseMessageEvent := do
  let tid ← getStr content "task_id"
  let wrid ← getStr content "workflow_run_id"
  let data ← match jlookup content "data" with
    | some v => parseNodeStartedData v
    | none => .error "missing field data"
  let collect := removeKeys content ["task_id", "workflow_run_id", "data"]
  let base ← parseOptBase collect
  .ok (.NodeStarted base tid wrid data (removeKeys collect messageBaseKeys))

/-- The `node_finished` variant. -/
def parseNodeFinishedVariant (content : JObj) : Except String SseMessageEvent := do
  let tid ← getStr content "task_id"
  let wrid ← getStr content "workflow_run_id"
  let data ← match jlookup content "data" with
    | some v => parseNodeFinishedData v
    | none => .error "missing field data"
  let collect := removeKeys content ["task_id", "workflow_run_id", "data"]
  let base ← parseOptBase collect
  .ok (.NodeFinished base tid wrid data (removeKeys collect messageBaseKeys))

/-- The `workflow_finished` variant. -/
def parseWorkflowFinishedVariant (content : JObj) : Except String SseMessageEvent := do
  let tid ← getStr content "task_id"
  let wrid ← getStr content "workflow_run_id"
  let data ← match jlookup content "data" with
    | some v => parseWorkflowFinishedData v
    | none => .error "missing field data"
  let collect := removeKeys content ["task_id", "workflow_run_id", "data"]
  let base ← parseOptBase collect
  .ok (.WorkflowFinished base tid wrid data (removeKeys collect messageBaseKeys))

/-- The `agent_message` variant. -/
def parseAgentMessageVariant (content : JObj) : Except String SseMessageEvent := do
  let id ← getStr content "id"
  let tid ← getStr content "task_id"
  let ans ← getStr content "answer"
  let collect := removeKeys content ["id", "task_id", "answer"]
  let base ← parseOptBase collect
  .ok (.AgentMessage base id tid ans (removeKeys collect messageBaseKeys))

/-- The `agent_thought` variant (no flattened `extra` map: leftover fields
not consumed by the flattened `base` are dropped). -/
def parseAgentThoughtVariant (content : JObj) : Except String SseMessageEvent := do
  let id ← getStr content "id"
  let tid ← getStr content "task_id"
  let pos ← getU32 content "position"
  let thought ← getStr content "thought"
  let obs ← getStr content "observation"
  let tool ← getStr content "tool"
  let tlabels ← getAny content "tool_labels"
  let tinput ← getStr content "tool_input"
  let mfiles ← getStrList content "message_files"
  let collect := removeKeys content
    ["id", "task_id", "position", "thought", "observation", "tool",
     "tool_labels", "tool_input", "message_files"]
  let base ← parseOptBase collect
  .ok (.AgentThought base id tid pos thought obs tool tlabels tinput mfiles)

/-- The `error` variant. -/
def parseErrorVariant (content : JObj) : Except String SseMessageEvent := do
  let status ← getU32 content "status"
  let code ← getStr content "code"
  let message ← getStr content "message"
  let collect := removeKeys content ["status", "code", "message"]
  let base ← parseOptBase collect
  .ok (.Error base status code message (removeKeys collect messageBaseKeys))

/-- Dispatch on the inner `event` tag.  Unknown tags fail: the union is
closed.  The `ping` unit variant ignores any remaining content. -/
def parseVariant (tag : String) (content : JObj) : Except String SseMessageEvent :=
  if tag = "message" then parseMessageVariant content
  else if tag = "message_file" then parseMessageFileVariant content
  else if tag = "message_end" then parseMessageEndVariant content
  else if tag = "message_replace" then parseMessageReplaceVariant content
  else if tag = "workflow_started" then parseWorkflowStartedVariant content
  else if tag = "node_started" then parseNodeStartedVariant content
  else if tag = "node_finished" then parseNodeFinishedVariant content
  else if tag = "workflow_finished" then parseWorkflowFinishedVariant content
  else if tag = "agent_message" then parseAgentMessageVariant content
  else if tag = "agent_thought" then parseAgentThoughtVariant content
  else if tag = "error" then parseErrorVariant content
  else if tag = "ping" then .ok .Ping
  else .error ("unknown variant " ++ tag)

/-- `serde_json::from_str::<SseMessageEvent>` on a JSON value: read the
`event` tag, then deserialize the selected variant from the remaining
fields. -/
def SseMessageEvent.fromJson (j : Json) : Except String SseMessageEvent :=
  match j with
  | .obj fs =>
      match jlookup fs "event" with
      | some (.str tag) => parseVariant tag (removeKeys fs ["event"])
      | some _ => .error "invalid type for tag event"
      | none => .error "missing field event"
  | _ => .error "invalid type: expected a map"

/-- `serde_json::from_str::<SseMessageEvent>` on body text: text that is
not valid JSON fails with a syntax error. -/
def serdeFromStr (t : JsonText) : Except String SseMessageEvent :=
  match t with
  | .val j => SseMessageEvent.fromJson j
  | .malformed s => .error ("expected value at " ++ s)

/-! ## SSE frames and the `SseMessageEventStream` adapter
(src/dify-client/src/response.rs) -/

/-- An SSE frame as produced by the `eventsource_stream` lexical layer:
the outer event name and the `data` payload text. -/
structure SseEvent where
  event : String
  data : JsonText

/-- One item of the underlying framed stream: either a frame or a
transport-level error. -/
abbrev SseItem := Except String SseEvent

/-- State of `SseMessageEventStream`: the remaining items of the inner
`EventStream` and the `terminated` flag. -/
structure SseMessageEventStreamState where
  stream : List SseItem
  terminated : Bool

/-- The inner polling loop of `SseMessageEventStream::poll_next`: skip
frames whose outer event name is not `"message"`; emit the decoded event
or the decode error for `"message"` frames; surface transport errors;
mark the stream terminated on exhaustion (and only then). -/
def pollLoop : List SseItem →
    Option (Except String SseMessageEvent) × SseMessageEventStreamState
  | [] => (none, ⟨[], true⟩)
  | .error e :: rest => (some (.error e), ⟨rest, false⟩)
  | .ok ev :: rest =>
      if ev.event = "message" then
        match serdeFromStr ev.data with
        | .ok m => (some (.ok m), ⟨rest, false⟩)
        | .error pe => (some (.error pe), ⟨rest, false⟩)
      else pollLoop rest

/-- `SseMessageEventStream::poll_next` (restricted to ready polls): a
terminated stream yields nothing; otherwise run the polling loop. -/
def pollNext (s : SseMessageEventStreamState) :
    Option (Except String SseMessageEvent) × SseMessageEventStreamState :=
  if s.terminated then (none, s) else pollLoop s.stream

/-- All items an adapter consumer observes from a list of frames:
repeated polling until exhaustion. -/
def drainFrom : List SseItem → List (Except String SseMessageEvent)
  | [] => []
  | .error e :: rest => .error e :: drainFrom rest
  | .ok ev :: rest =>
      if ev.event = "message" then
        (match serdeFromStr ev.data with
         | .ok m => Except.ok m
         | .error pe => Except.error pe) :: drainFrom rest
      else drainFrom rest

/-- All items a consumer observes from an adapter state. -/
def SseMessageEventStreamState.drain (s : SseMessageEventStreamState) :
    List (Except String SseMessageEvent) :=
  if s.terminated then [] else drainFrom s.stream

/-! ## The streaming driver loop (src/dify-client/src/api.rs)

`chat_messages_stream`, `workflows_run_stream` and
`completion_messages_stream` share this loop verbatim: for each item of
the framed response stream, propagate transport errors; for frames whose
outer event name is `"message"`, decode the payload (failing the whole
call with the offending data and the parse error on decode failure) and
invoke the callback, appending `Some` results in arrival order;
non-`"message"` frames are skipped; on exhaustion return the accumulated
vector. -/

/-- A failure of a streaming call, mirroring the three `anyhow` failure
sources of the driver loop.  `frameParse` models
`bail!("data: \x7b\x7d, error: \x7b\x7d", event.data, e)`, carrying the
offending raw payload and the parse error. -/
inductive StreamCallError where
  | transport (msg : String)
  | frameParse (data : JsonText) (err : String)
  | callback (msg : String)

/-- The driver loop over the framed response stream. -/
def streamLoop (cb : SseMessageEvent → Except String (Option T)) :
    List SseItem → Except StreamCallError (List T)
  | [] => .ok []
  | .error e :: _ => .error (.transport e)
  | .ok ev :: rest =>
      if ev.event = "message" then
        match serdeFromStr ev.data with
        | .ok msgEvent =>
            match cb msgEvent with
            | .error ce => .error (.callback ce)
            | .ok none => streamLoop cb rest
            | .ok (some v) => (streamLoop cb rest).map (fun l => v :: l)
        | .error pe => .error (.frameParse ev.data pe)
      else streamLoop cb rest

/-! ## Request data model (src/dify-client/src/request.rs) -/

/-- `ResponseMode` (`rename_all = "snake_case"`). -/
inductive ResponseMode where
  | Blocking
  | Streaming

/-- `ChatMessageFile` (tagged on `transfer_method`). -/
inductive ChatMessageFile where
  | RemoteUrl (type_ : FileType) (url : String)
  | LocalFile (type_ : FileType) (upload_file_id : String)

/-- The chat-message request payload. -/
structure ChatMessagesRequest where
  inputs : List (String × String)
  query : String
  response_mode : ResponseMode
  user : String
  conversation_id : String
  files : List ChatMessageFile
  auto_generate_name : Bool

/-- `WorkflowsRunRequest`. -/
structure WorkflowsRunRequest where
  inputs : List (String × String)
  response_mode : ResponseMode
  user : String
  files : List ChatMessageFile

/-- `CompletionMessagesRequest`. -/
structure CompletionMessagesRequest where
  inputs : List (String × String)
  response_mode : ResponseMode
  user : String
  conversation_id : String
  files : List ChatMessageFile

/-- `StreamTaskStopRequest`. -/
structure StreamTaskStopRequest where
  task_id : String
  user : String

/-- `ConversationsRenameRequest`. -/
structure ConversationsRenameRequest where
  conversation_id : String
  name : Option String
  auto_generate : Bool
  user : String

/-- `ConversationsDeleteRequest`. -/
structure ConversationsDeleteRequest where
  conversation_id : String
  user : String

/-- serde serialization of `StreamTaskStopRequest` (fields in declaration
order; no skip attributes, so every field is emitted). -/
def StreamTaskStopRequest.toJson (r : StreamTaskStopRequest) : Json :=
  .obj [("task_id", .str r.task_id), ("user", .str r.user)]

/-- serde serialization of `ConversationsRenameRequest` (`None` is
serialized as `null`). -/
def ConversationsRenameRequest.toJson (r : ConversationsRenameRequest) : Json :=
  .obj [("conversation_id", .str r.conversation_id),
        ("name", match r.name with | some n => .str n | none => .null),
        ("auto_generate", .bool r.auto_generate),
        ("user", .str r.user)]

/-- serde serialization of `ConversationsDeleteRequest`. -/
def ConversationsDeleteRequest.toJson (r : ConversationsDeleteRequest) : Json :=
  .obj [("conversation_id", .str r.conversation_id), ("user", .str r.user)]

/-! ## Streaming API entry points (src/dify-client/src/api.rs)

Each entry point sets the request's response mode to `Streaming`, builds
and sends the HTTP request, and folds the framed response stream through
the driver loop.  Request building and transport are abstracted: the
`frames` parameter is the SSE item sequence of the transport's
response. -/

/-- `Api::chat_messages_stream`. -/
def chat_messages_stream (req : ChatMessagesRequest) (frames : List SseItem)
    (cb : SseMessageEvent → Except String (Option T)) :
    Except StreamCallError (List T) :=
  let _req := { req with response_mode := ResponseMode.Streaming }
  streamLoop cb frames

/-- `Api::workflows_run_stream`. -/
def workflows_run_stream (req : WorkflowsRunRequest) (frames : List SseItem)
    (cb : SseMessageEvent → Except String (Option T)) :
    Except StreamCallError (List T) :=
  let _req := { req with response_mode := ResponseMode.Streaming }
  streamLoop cb frames

/-- `Api::completion_messages_stream`. -/
def completion_messages_stream (req : CompletionMessagesRequest)
    (frames : List SseItem)
    (cb : SseMessageEvent → Except String (Option T)) :
    Except StreamCallError (List T) :=
  let _req := { req with response_mode := ResponseMode.Streaming }
  streamLoop cb frames

/-! ## Response reconciler (src/dify-client/src/response.rs) -/

/-- `ErrorResponse`: the service-error shape. -/
structure ErrorResponse where
  code : String
  message : String
  status : Nat
deriving DecidableEq

/-- `ErrorResponse::unknown`: the synthesized fallback error. -/
def ErrorResponse.unknown (message : String) : ErrorResponse :=
  ⟨"unknown_error", message, 503⟩

/-- `serde_json::from_str::<ErrorResponse>` on body text: requires a JSON
object with string `code` and `message` and a `u32` `status`; unknown
fields are ignored. -/
def decodeErrorResponse (t : JsonText) : Option ErrorResponse :=
  match t with
  | .val (.obj fs) =>
      match getStr fs "code", getStr fs "message", getU32 fs "status" with
      | .ok c, .ok m, .ok s => some ⟨c, m, s⟩
      | _, _, _ => none
  | _ => none

/-- `ResultResponse`. -/
structure ResultResponse where
  result : String
deriving DecidableEq

/-- `serde_json::from_str::<ResultResponse>` on body text. -/
def decodeResultResponse (t : JsonText) : Option ResultResponse :=
  match t with
  | .val (.obj fs) =>
      match getStr fs "result" with
      | .ok r => some ⟨r⟩
      | .error _ => none
  | _ => none

/-- `parse_error_response`: deserialize the body as `ErrorResponse` and
fail with it; otherwise fail with the synthesized unknown error whose
message is the raw body text. -/
def parse_error_response (text : JsonText) : Except ErrorResponse α :=
  match decodeErrorResponse text with
  | some err => .error err
  | none => .error (ErrorResponse.unknown text.raw)

/-- `parse_response::<T>`: try the expected success shape first (`dec` is
the serde deserializer of the expected type), then fall back to
`parse_error_response`. -/
def parse_response (dec : JsonText → Option α) (text : JsonText) :
    Except ErrorResponse α :=
  match dec text with
  | some v => .ok v
  | none => parse_error_response text

/-! ## Validated API operations (src/dify-client/src/api.rs)

Each operation is modelled as a pure function of its request, the client
configuration, and the transport (a function from HTTP requests to HTTP
responses).  Alongside the result it returns the trace of HTTP requests
it issued, so that "no network request is made" is the statement that
the trace is empty. -/

/-- HTTP method (the subset `create_request` supports). -/
inductive Method where
  | POST
  | GET
  | DELETE
deriving DecidableEq

/-- An outgoing HTTP request (method, URL and JSON body; headers carry no
claim-relevant content and are omitted). -/
structure HttpRequest where
  method : Method
  url : String
  body : Json

/-- A completed HTTP response: status code and body text. -/
structure HttpResponse where
  status : Nat
  body : JsonText

/-- A pure transport: executes a request and yields its response. -/
abbrev Transport := HttpRequest → HttpResponse

/-- `ApiPath`. -/
inductive ApiPath where
  | ChatMessages
  | FilesUpload
  | ChatMessagesStop
  | MessagesFeedbacks
  | MessagesSuggested
  | Messages
  | Conversations
  | ConversationsDelete
  | ConversationsRename
  | AudioToText
  | TextToAudio
  | Parameters
  | Meta
  | WorkflowsRun
  | WorkflowsStop
  | CompletionMessages
  | CompletionMessagesStop

/-- `ApiPath::as_str`. -/
def ApiPath.as_str : ApiPath → String
  | .ChatMessages => "/v1/chat-messages"
  | .FilesUpload => "/v1/files/upload"
  | .ChatMessagesStop => "/v1/chat-messages/\x7btask_id\x7d/stop"
  | .MessagesFeedbacks => "/v1/messages/\x7bmessage_id\x7d/feedbacks"
  | .MessagesSuggested => "/v1/messages/\x7bmessage_id\x7d/suggested"
  | .Messages => "/v1/messages"
  | .Conversations => "/v1/conversations"
  | .ConversationsDelete => "/v1/conversations/\x7bconversation_id\x7d"
  | .ConversationsRename => "/v1/conversations/\x7bconversation_id\x7d/name"
  | .AudioToText => "/v1/audio-to-text"
  | .TextToAudio => "/v1/text-to-audio"
  | .Parameters => "/v1/parameters"
  | .Meta => "/v1/meta"
  | .WorkflowsRun => "/v1/workflows/run"
  | .WorkflowsStop => "/v1/workflows/\x7btask_id\x7d/stop"
  | .CompletionMessages => "/v1/completion-messages"
  | .CompletionMessagesStop => "/v1/completion-messages/\x7btask_id\x7d/stop"

/-- One step of leftmost, non-overlapping replacement: on a pattern match,
emit the replacement and continue past the matched text, otherwise keep
one character.  The fuel argument (initially the text length) makes the
recursion structural; it never runs out for a non-empty pattern. -/
def replaceLoop (pat rep : List Char) : Nat → List Char → List Char
  | 0, s => s
  | _ + 1, [] => []
  | fuel + 1, c :: cs =>
      if pat.isPrefixOf (c :: cs) then
        rep ++ replaceLoop pat rep fuel ((c :: cs).drop pat.length)
      else
        c :: replaceLoop pat rep fuel cs

/-- Rust's `str::replace`: replace every (leftmost, non-overlapping)
occurrence of `pat` in `s` by `rep`.  Only used with the non-empty
placeholder patterns of the URL templates. -/
def strReplace (s pat rep : String) : String :=
  ⟨replaceLoop pat.data rep.data s.data.length s.data⟩

/-- Client configuration (the fields the modelled operations read). -/
structure Config where
  base_url : String

/-- `Api::build_request_api`: base URL plus path. -/
def build_request_api (cfg : Config) (api_path : ApiPath) : String :=
  cfg.base_url ++ api_path.as_str

/-- A failure of a validated blocking operation: either a local validation
`bail!` (with its message) or a service error from the reconciler. -/
inductive ApiError where
  | validation (msg : String)
  | service (e : ErrorResponse)

/-- `Api::stream_task_stop`: empty task id fails validation before
building any request; otherwise POST to the stop endpoint with
`\x7btask_id\x7d` substituted in the URL, the request's `task_id` field
cleared to the empty string, and the body routed through the
reconciler. -/
def stream_task_stop (cfg : Config) (req : StreamTaskStopRequest)
    (api_path : ApiPath) (transport : Transport) :
    Except ApiError ResultResponse × List HttpRequest :=
  if req.task_id = "" then
    (.error (.validation "StreamTaskStopRequest.TaskId Illegal"), [])
  else
    let url := strReplace (build_request_api cfg api_path) "\x7btask_id\x7d" req.task_id
    let req2 := { req with task_id := "" }
    let hreq : HttpRequest := ⟨.POST, url, req2.toJson⟩
    let resp := transport hreq
    ((parse_response decodeResultResponse resp.body).mapError .service, [hreq])

/-- `Api::chat_messages_stop`. -/
def chat_messages_stop (cfg : Config) (req : StreamTaskStopRequest)
    (transport : Transport) :
    Except ApiError ResultResponse × List HttpRequest :=
  stream_task_stop cfg req .ChatMessagesStop transport

/-- `Api::workflows_stop`. -/
def workflows_stop (cfg : Config) (req : StreamTaskStopRequest)
    (transport : Transport) :
    Except ApiError ResultResponse × List HttpRequest :=
  stream_task_stop cfg req .WorkflowsStop transport

/-- `Api::completion_messages_stop`. -/
def completion_messages_stop (cfg : Config) (req : StreamTaskStopRequest)
    (transport : Transport) :
    Except ApiError ResultResponse × List HttpRequest :=
  stream_task_stop cfg req .CompletionMessagesStop transport

/-- `Api::conversations_renaming`: validates a non-empty conversation id,
then bails with "Name Illegal" when `auto_generate` is set and `name` is
`None`; otherwise POSTs to the rename endpoint with the conversation id
substituted in the URL and cleared in the body. -/
def conversations_renaming (cfg : Config) (req : ConversationsRenameRequest)
    (transport : Transport) :
    Except ApiError ResultResponse × List HttpRequest :=
  if req.conversation_id = "" then
    (.error (.validation "ConversationsRenameRequest.ConversationID Illegal"), [])
  else if req.auto_generate && req.name.isNone then
    (.error (.validation "ConversationsRenameRequest.Name Illegal"), [])
  else
    let url := strReplace (build_request_api cfg .ConversationsRename)
      "\x7bconversation_id\x7d" req.conversation_id
    let req2 := { req with conversation_id := "" }
    let hreq : HttpRequest := ⟨.POST, url, req2.toJson⟩
    let resp := transport hreq
    ((parse_response decodeResultResponse resp.body).mapError .service, [hreq])

/-- `Api::conversations_delete`: validates a non-empty conversation id,
DELETEs the conversation, succeeds with no value exactly on HTTP 204 and
otherwise routes the body through `parse_error_response`. -/
def conversations_delete (cfg : Config) (req : ConversationsDeleteRequest)
    (transport : Transport) : Except ApiError Unit × List HttpRequest :=
  if req.conversation_id = "" then
    (.error (.validation "ConversationsDeleteRequest.ConversationID Illegal"), [])
  else
    let url := strReplace (build_request_api cfg .ConversationsDelete)
      "\x7bconversation_id\x7d" req.conversation_id
    let req2 := { req with conversation_id := "" }
    let hreq : HttpRequest := ⟨.DELETE, url, req2.toJson⟩
    let resp := transport hreq
    if resp.status = 204 then (.ok (), [hreq])
    else ((parse_error_response resp.body).mapError .service, [hreq])


/-! ## Helper lemmas -/

/-- A frame whose outer event name is not `"message"` is skipped by the
driver loop. -/
theorem streamLoop_skip (cb : SseMessageEvent → Except String (Option T))
    {ev : SseEvent} (rest : List SseItem) (h : ev.event ≠ "message") :
    streamLoop cb (.ok ev :: rest) = streamLoop cb rest := by
  simp [streamLoop, h]

/-- The driver loop is compositional: processing `xs ++ ys` processes `xs`
first and, when that succeeds, appends the values collected from `ys`. -/
theorem streamLoop_append (cb : SseMessageEvent → Except String (Option T))
    (xs ys : List SseItem) :
    streamLoop cb (xs ++ ys)
      = (streamLoop cb xs).bind
          (fun vs => (streamLoop cb ys).map (fun ws => vs ++ ws)) := by
  induction xs with
  | nil =>
      show streamLoop cb ys = _
      cases streamLoop cb ys <;> simp [streamLoop, Except.bind, Except.map]
  | cons x xs ih =>
      cases x with
      | error e => simp [streamLoop, Except.bind]
      | ok ev =>
          by_cases hmsg : ev.event = "message"
          · cases hsd : serdeFromStr ev.data with
            | error pe => simp [streamLoop, hmsg, hsd, Except.bind]
            | ok m =>
                cases hcb : cb m with
                | error ce => simp [streamLoop, hmsg, hsd, hcb, Except.bind]
                | ok o =>
                    cases o with
                    | none => simpa [streamLoop, hmsg, hsd, hcb] using ih
                    | some v =>
                        have hl : streamLoop cb ((Except.ok ev :: xs) ++ ys)
                            = (streamLoop cb (xs ++ ys)).map (fun l => v :: l) := by
                          simp [streamLoop, hmsg, hsd, hcb]
                        have hr : streamLoop cb (Except.ok ev :: xs)
                            = (streamLoop cb xs).map (fun l => v :: l) := by
                          simp [streamLoop, hmsg, hsd, hcb]
                        rw [hl, ih, hr]
                        cases streamLoop cb xs <;> cases streamLoop cb ys <;>
                          simp [Except.bind, Except.map]
          · simp [streamLoop, hmsg, ih]

/-- Draining distributes over appended frame lists. -/
theorem drainFrom_append (xs ys : List SseItem) :
    drainFrom (xs ++ ys) = drainFrom xs ++ drainFrom ys := by
  induction xs with
  | nil => rfl
  | cons x xs ih =>
      cases x with
      | error e => simp [drainFrom, ih]
      | ok ev => by_cases h : ev.event = "message" <;> simp [drainFrom, h, ih]

/-- When the polling loop yields an item, draining yields that item
followed by the drain of the successor state. -/
theorem pollLoop_some_drain {xs : List SseItem}
    {it : Except String SseMessageEvent} {s : SseMessageEventStreamState}
    (h : pollLoop xs = (some it, s)) : drainFrom xs = it :: s.drain := by
  induction xs with
  | nil => simp [pollLoop] at h
  | cons x xs ih =>
      cases x with
      | error e =>
          simp only [pollLoop, Prod.mk.injEq, Option.some.injEq] at h
          obtain ⟨h1, h2⟩ := h
          subst h1; subst h2
          simp [drainFrom, SseMessageEventStreamState.drain]
      | ok ev =>
          by_cases hmsg : ev.event = "message"
          · cases hsd : serdeFromStr ev.data with
            | ok m =>
                simp only [pollLoop, if_pos hmsg, hsd, Prod.mk.injEq, Option.some.injEq] at h
                obtain ⟨h1, h2⟩ := h
                subst h1; subst h2
                simp [drainFrom, hmsg, hsd, SseMessageEventStreamState.drain]
            | error pe =>
                simp only [pollLoop, if_pos hmsg, hsd, Prod.mk.injEq, Option.some.injEq] at h
                obtain ⟨h1, h2⟩ := h
                subst h1; subst h2
                simp [drainFrom, hmsg, hsd, SseMessageEventStreamState.drain]
          · rw [pollLoop, if_neg hmsg] at h
            simp [drainFrom, hmsg, ih h]

/-- When the polling loop yields no item, the input is fully drained and
the stream is marked terminated. -/
theorem pollLoop_none_drain {xs : List SseItem} {s : SseMessageEventStreamState}
    (h : pollLoop xs = (none, s)) : drainFrom xs = [] ∧ s = ⟨[], true⟩ := by
  induction xs with
  | nil =>
      simp only [pollLoop, Prod.mk.injEq] at h
      exact ⟨rfl, h.2.symm⟩
  | cons x xs ih =>
      cases x with
      | error e => simp [pollLoop] at h
      | ok ev =>
          by_cases hmsg : ev.event = "message"
          · cases hsd : serdeFromStr ev.data <;>
              simp [pollLoop, hmsg, hsd] at h
          · rw [pollLoop, if_neg hmsg] at h
            have := ih h
            simp [drainFrom, hmsg, this.1, this.2]

/-- `pollNext` is the one-step unfolding of `drain`: an emitted item is
the head of the drained sequence. -/
theorem pollNext_some_drain {s : SseMessageEventStreamState}
    {it : Except String SseMessageEvent} {s2 : SseMessageEventStreamState}
    (h : pollNext s = (some it, s2)) : s.drain = it :: s2.drain := by
  by_cases ht : s.terminated
  · simp [pollNext, ht] at h
  · rw [pollNext, if_neg ht] at h
    rw [SseMessageEventStreamState.drain, if_neg ht]
    exact pollLoop_some_drain h

/-- `pollNext` yields no item exactly on a fully drained stream, and the
successor state drains to nothing as well. -/
theorem pollNext_none_drain {s s2 : SseMessageEventStreamState}
    (h : pollNext s = (none, s2)) : s.drain = [] ∧ s2.drain = [] := by
  by_cases ht : s.terminated
  · rw [pollNext, if_pos ht] at h
    simp only [Prod.mk.injEq] at h
    obtain ⟨-, rfl⟩ := h
    simp [SseMessageEventStreamState.drain, ht]
  · rw [pollNext, if_neg ht] at h
    obtain ⟨hd, hs⟩ := pollLoop_none_drain h
    subst hs
    constructor
    · rw [SseMessageEventStreamState.drain, if_neg ht]
      exact hd
    · rfl

/-- C1: for every streaming call (chat, workflow, completion) and every
frame sequence, a `"message"` frame whose data payload fails to
deserialize as a stream event fails the whole call immediately with an
error carrying the offending raw data and the parse error, returning no
partial result list, regardless of the frame's position and of the
values already collected from the preceding frames. -/
theorem c1_bad_frame_fails_whole_call
    (cb : SseMessageEvent → Except String (Option T))
    (pre post : List SseItem) (ev : SseEvent) (vs : List T) (e : String)
    (creq : ChatMessagesRequest) (wreq : WorkflowsRunRequest)
    (mreq : CompletionMessagesRequest)
    (hpre : streamLoop cb pre = .ok vs)
    (hev : ev.event = "message")
    (hbad : serdeFromStr ev.data = .error e) :
    chat_messages_stream creq (pre ++ .ok ev :: post) cb
        = .error (.frameParse ev.data e)
    ∧ workflows_run_stream wreq (pre ++ .ok ev :: post) cb
        = .error (.frameParse ev.data e)
    ∧ completion_messages_stream mreq (pre ++ .ok ev :: post) cb
        = .error (.frameParse ev.data e) := by
  have hstep : streamLoop cb (.ok ev :: post) = .error (.frameParse ev.data e) := by
    simp [streamLoop, hev, hbad]
  have key : streamLoop cb (pre ++ .ok ev :: post)
      = .error (.frameParse ev.data e) := by
    rw [streamLoop_append, hpre]
    simp [hstep, Except.bind, Except.map]
  exact ⟨key, key, key⟩

theorem c1_bad_frame_fails_whole_call_witness :
    chat_messages_stream
        ⟨[], "q", .Blocking, "u", "", [], true⟩
        [Except.ok ⟨"message", .val (.obj [("event", .str "message"),
            ("id", .str "m1"), ("task_id", .str "t1"), ("answer", .str "Hi")])⟩,
         Except.ok ⟨"message", .val (.obj [("event", .str "unknown_evt")])⟩]
        (fun ev => match ev with
          | .Message _ _ _ ans _ => .ok (some ans)
          | _ => .ok none)
      = .error (.frameParse (.val (.obj [("event", .str "unknown_evt")]))
          "unknown variant unknown_evt") :=
  (c1_bad_frame_fails_whole_call
    (fun ev => match ev with
      | .Message _ _ _ ans _ => .ok (some ans)
      | _ => .ok none)
    [Except.ok ⟨"message", .val (.obj [("event", .str "message"),
        ("id", .str "m1"), ("task_id", .str "t1"), ("answer", .str "Hi")])⟩]
    []
    ⟨"message", .val (.obj [("event", .str "unknown_evt")])⟩
    ["Hi"] "unknown variant unknown_evt"
    ⟨[], "q", .Blocking, "u", "", [], true⟩
    ⟨[], .Blocking, "u", []⟩
    ⟨[], .Blocking, "u", "", []⟩
    rfl rfl rfl).1

/-- C2: for every streaming call and every sequence of well-formed
`"message"` frames on which the projector returns `Some valueᵢ`, the call
succeeds at end of stream with exactly the projected values in arrival
order. -/
theorem c2_projected_values_in_arrival_order
    (cb : SseMessageEvent → Except String (Option T))
    (evs : List SseEvent) (vals : List T)
    (creq : ChatMessagesRequest) (wreq : WorkflowsRunRequest)
    (mreq : CompletionMessagesRequest)
    (h : List.Forall₂
      (fun ev v => ev.event = "message" ∧
        ∃ m, serdeFromStr ev.data = .ok m ∧ cb m = .ok (some v)) evs vals) :
    chat_messages_stream creq (evs.map Except.ok) cb = .ok vals
    ∧ workflows_run_stream wreq (evs.map Except.ok) cb = .ok vals
    ∧ completion_messages_stream mreq (evs.map Except.ok) cb = .ok vals := by
  have key : streamLoop cb (evs.map Except.ok) = .ok vals := by
    induction h with
    | nil => rfl
    | cons hp _ ih =>
        obtain ⟨hmsg, m, hm, hcb⟩ := hp
        simp [streamLoop, hmsg, hm, hcb, ih, Except.map]
  exact ⟨key, key, key⟩

theorem c2_projected_values_in_arrival_order_witness :
    chat_messages_stream
        ⟨[], "q", .Blocking, "u", "", [], true⟩
        [Except.ok ⟨"message", .val (.obj [("event", .str "message"),
            ("id", .str "m1"), ("task_id", .str "t1"), ("answer", .str "Hi")])⟩,
         Except.ok ⟨"message", .val (.obj [("event", .str "message"),
            ("id", .str "m1"), ("task_id", .str "t1"), ("answer", .str "!")])⟩]
        (fun ev => match ev with
          | .Message _ _ _ ans _ => .ok (some ans)
          | _ => .ok none)
      = .ok ["Hi", "!"] :=
  (c2_projected_values_in_arrival_order
    (fun ev => match ev with
      | .Message _ _ _ ans _ => .ok (some ans)
      | _ => .ok none)
    [⟨"message", .val (.obj [("event", .str "message"), ("id", .str "m1"),
        ("task_id", .str "t1"), ("answer", .str "Hi")])⟩,
     ⟨"message", .val (.obj [("event", .str "message"), ("id", .str "m1"),
        ("task_id", .str "t1"), ("answer", .str "!")])⟩]
    ["Hi", "!"]
    ⟨[], "q", .Blocking, "u", "", [], true⟩
    ⟨[], .Blocking, "u", []⟩
    ⟨[], .Blocking, "u", "", []⟩
    (.cons ⟨rfl, .Message none "m1" "t1" "Hi" [], rfl, rfl⟩
      (.cons ⟨rfl, .Message none "m1" "t1" "!" [], rfl, rfl⟩ .nil))).1

/-- C3: the response reconciler returns the typed success value whenever
the body deserializes as the expected success shape (success takes
priority over the error shape); otherwise, a body deserializing as
`ErrorResponse` fails with exactly that error; otherwise it fails with a
synthesized error with code `"unknown_error"`, status `503` and message
equal to the raw body text. -/
theorem c3_parse_response_cascade (dec : JsonText → Option α) (text : JsonText) :
    (∀ v, dec text = some v → parse_response dec text = .ok v)
    ∧ (dec text = none →
        ∀ e, decodeErrorResponse text = some e →
          parse_response dec text = .error e)
    ∧ (dec text = none → decodeErrorResponse text = none →
        parse_response dec text = .error ⟨"unknown_error", text.raw, 503⟩) := by
  refine ⟨fun v hv => ?_, fun hn e he => ?_, fun hn he => ?_⟩
  · simp [parse_response, hv]
  · simp [parse_response, hn, parse_error_response, he]
  · simp [parse_response, hn, parse_error_response, he, ErrorResponse.unknown]

theorem c3_parse_response_cascade_witness :
    parse_response decodeResultResponse (.val (.obj [("result", .str "success")]))
      = .ok ⟨"success"⟩
    ∧ parse_response decodeResultResponse
        (.val (.obj [("code", .str "not_found"), ("message", .str "no such id"),
                     ("status", .num 404)]))
      = .error ⟨"not_found", "no such id", 404⟩
    ∧ parse_response decodeResultResponse (.malformed "oops")
      = .error ⟨"unknown_error", "oops", 503⟩ :=
  ⟨(c3_parse_response_cascade decodeResultResponse
      (.val (.obj [("result", .str "success")]))).1 ⟨"success"⟩ rfl,
   (c3_parse_response_cascade decodeResultResponse
      (.val (.obj [("code", .str "not_found"), ("message", .str "no such id"),
                   ("status", .num 404)]))).2.1 rfl ⟨"not_found", "no such id", 404⟩ rfl,
   (c3_parse_response_cascade decodeResultResponse (.malformed "oops")).2.2 rfl rfl⟩

/-- C4: a frame whose outer SSE event name is not `"message"` is silently
dropped: it contributes neither an emitted stream event in the adapter
nor any output or failure in the driver loop, at any position of the
input. -/
theorem c4_non_message_frames_dropped
    (cb : SseMessageEvent → Except String (Option T))
    (pre post : List SseItem) (ev : SseEvent)
    (h : ev.event ≠ "message") :
    streamLoop cb (pre ++ .ok ev :: post) = streamLoop cb (pre ++ post)
    ∧ SseMessageEventStreamState.drain ⟨pre ++ .ok ev :: post, false⟩
        = SseMessageEventStreamState.drain ⟨pre ++ post, false⟩ := by
  constructor
  · rw [streamLoop_append, streamLoop_append, streamLoop_skip cb post h]
  · rw [SseMessageEventStreamState.drain, SseMessageEventStreamState.drain]
    simp only [Bool.false_eq_true, if_false]
    rw [drainFrom_append, drainFrom_append]
    have : drainFrom (.ok ev :: post) = drainFrom post := by
      simp [drainFrom, h]
    rw [this]

theorem c4_non_message_frames_dropped_witness :
    streamLoop (fun _ => Except.ok (some 1))
        [Except.ok ⟨"ping", .malformed "x"⟩]
      = streamLoop (T := Nat) (fun _ => Except.ok (some 1)) []
    ∧ SseMessageEventStreamState.drain ⟨[Except.ok ⟨"ping", .malformed "x"⟩], false⟩
      = SseMessageEventStreamState.drain ⟨[], false⟩ :=
  c4_non_message_frames_dropped (fun _ => Except.ok (some 1)) [] []
    ⟨"ping", .malformed "x"⟩ (by decide)

/-- C5 counterexample: a transport error is surfaced as a failure item,
but the adapter is not terminated by it: the very next poll produces a
further item from the underlying stream. -/
theorem c5_error_terminates_counterexample :
    pollNext ⟨[.error "boom",
               .ok ⟨"message", .val (.obj [("event", .str "ping")])⟩], false⟩
      = (some (.error "boom"),
         ⟨[.ok ⟨"message", .val (.obj [("event", .str "ping")])⟩], false⟩)
    ∧ (pollNext ⟨[.ok ⟨"message", .val (.obj [("event", .str "ping")])⟩], false⟩).1
      = some (.ok .Ping) :=
  ⟨rfl, rfl⟩

/-- C5 (amended): a transport error is surfaced as the sequence's failure
item but does not mark the sequence terminated (further polls continue
to read the underlying stream); the sequence is marked terminated only
on exhaustion, and a terminated sequence never produces items. -/
theorem c5_amended_termination_only_on_exhaustion :
    (∀ (e : String) (rest : List SseItem),
      pollNext ⟨.error e :: rest, false⟩ = (some (.error e), ⟨rest, false⟩))
    ∧ (∀ s : SseMessageEventStreamState, s.terminated = true →
        pollNext s = (none, s))
    ∧ pollNext ⟨[], false⟩ = (none, ⟨[], true⟩) := by
  refine ⟨fun e rest => rfl, fun s hs => ?_, rfl⟩
  simp [pollNext, hs]

theorem c5_amended_termination_only_on_exhaustion_witness :
    pollNext ⟨[Except.error "boom"], true⟩ = (none, ⟨[Except.error "boom"], true⟩) :=
  c5_amended_termination_only_on_exhaustion.2.1 ⟨[Except.error "boom"], true⟩ rfl

/-- C6: with a non-empty conversation id, a delete call succeeds with no
value exactly when the response status is 204; for any other status the
body is routed through the service-error cascade: the parsed error shape
if the body parses as one, otherwise the synthesized unknown error whose
message is the raw body. -/
theorem c6_delete_204_semantics
    (cfg : Config) (req : ConversationsDeleteRequest) (transport : Transport)
    (resp : HttpResponse)
    (hid : req.conversation_id ≠ "")
    (hresp : transport
        ⟨.DELETE,
         strReplace (build_request_api cfg .ConversationsDelete)
           "\x7bconversation_id\x7d" req.conversation_id,
         ConversationsDeleteRequest.toJson { req with conversation_id := "" }⟩
      = resp) :
    ((conversations_delete cfg req transport).1 = .ok () ↔ resp.status = 204)
    ∧ (resp.status ≠ 204 →
        ∀ e, decodeErrorResponse resp.body = some e →
          (conversations_delete cfg req transport).1 = .error (.service e))
    ∧ (resp.status ≠ 204 → decodeErrorResponse resp.body = none →
        (conversations_delete cfg req transport).1
          = .error (.service (ErrorResponse.unknown resp.body.raw))) := by
  rw [conversations_delete, if_neg hid]
  simp only []
  rw [hresp]
  by_cases hst : resp.status = 204
  · rw [if_pos hst]
    refine ⟨by simp [hst], fun hne => absurd hst hne, fun hne => absurd hst hne⟩
  · rw [if_neg hst]
    refine ⟨?_, fun _ e he => ?_, fun _ he => ?_⟩
    · simp only [hst, iff_false]
      cases hdec : decodeErrorResponse resp.body <;>
        simp [parse_error_response, hdec, Except.mapError]
    · simp [parse_error_response, he, Except.mapError]
    · simp [parse_error_response, he, Except.mapError]

theorem c6_delete_204_semantics_witness :
    (conversations_delete ⟨"https://api.dify.ai"⟩ ⟨"c1", "u1"⟩
        (fun _ => ⟨204, .malformed ""⟩)).1 = .ok ()
    ∧ (conversations_delete ⟨"https://api.dify.ai"⟩ ⟨"c1", "u1"⟩
        (fun _ => ⟨200, .malformed ""⟩)).1
      = .error (.service ⟨"unknown_error", "", 503⟩) :=
  ⟨(c6_delete_204_semantics ⟨"https://api.dify.ai"⟩ ⟨"c1", "u1"⟩
      (fun _ => ⟨204, .malformed ""⟩) ⟨204, .malformed ""⟩ (by decide) rfl).1.mpr rfl,
   (c6_delete_204_semantics ⟨"https://api.dify.ai"⟩ ⟨"c1", "u1"⟩
      (fun _ => ⟨200, .malformed ""⟩) ⟨200, .malformed ""⟩ (by decide) rfl).2.2
      (by decide) rfl⟩

/-- C7: a stop call with an empty task id fails deterministically with
the local validation error and issues no HTTP request at all, for every
transport and for each of the three per-feature stop endpoints. -/
theorem c7_stop_empty_task_id_no_request
    (cfg : Config) (req : StreamTaskStopRequest) (transport : Transport)
    (h : req.task_id = "") :
    chat_messages_stop cfg req transport
      = (.error (.validation "StreamTaskStopRequest.TaskId Illegal"), [])
    ∧ workflows_stop cfg req transport
      = (.error (.validation "StreamTaskStopRequest.TaskId Illegal"), [])
    ∧ completion_messages_stop cfg req transport
      = (.error (.validation "StreamTaskStopRequest.TaskId Illegal"), []) := by
  refine ⟨?_, ?_, ?_⟩ <;>
    simp [chat_messages_stop, workflows_stop, completion_messages_stop,
          stream_task_stop, h]

theorem c7_stop_empty_task_id_no_request_witness :
    chat_messages_stop ⟨"https://api.dify.ai"⟩ ⟨"", "u1"⟩
        (fun _ => ⟨200, .malformed ""⟩)
      = (.error (.validation "StreamTaskStopRequest.TaskId Illegal"), []) :=
  (c7_stop_empty_task_id_no_request ⟨"https://api.dify.ai"⟩ ⟨"", "u1"⟩
    (fun _ => ⟨200, .malformed ""⟩) rfl).1

/-- C8: a stop call with a non-empty task id issues exactly one POST to
the per-feature stop endpoint, with the task id substituted for the URL
placeholder, the body's `task_id` field cleared to the empty string (the
id value no longer appears in the body) and the `user` identity retained
in the body. -/
theorem c8_stop_request_shape
    (cfg : Config) (req : StreamTaskStopRequest) (transport : Transport)
    (h : req.task_id ≠ "") :
    (chat_messages_stop cfg req transport).2
      = [⟨.POST,
          strReplace (build_request_api cfg .ChatMessagesStop)
            "\x7btask_id\x7d" req.task_id,
          .obj [("task_id", .str ""), ("user", .str req.user)]⟩]
    ∧ (workflows_stop cfg req transport).2
      = [⟨.POST,
          strReplace (build_request_api cfg .WorkflowsStop)
            "\x7btask_id\x7d" req.task_id,
          .obj [("task_id", .str ""), ("user", .str req.user)]⟩]
    ∧ (completion_messages_stop cfg req transport).2
      = [⟨.POST,
          strReplace (build_request_api cfg .CompletionMessagesStop)
            "\x7btask_id\x7d" req.task_id,
          .obj [("task_id", .str ""), ("user", .str req.user)]⟩] := by
  refine ⟨?_, ?_, ?_⟩ <;>
    simp [chat_messages_stop, workflows_stop, completion_messages_stop,
          stream_task_stop, h, StreamTaskStopRequest.toJson]

theorem c8_stop_request_shape_witness :
    (chat_messages_stop ⟨"https://api.dify.ai"⟩ ⟨"t1", "u1"⟩
        (fun _ => ⟨200, .malformed ""⟩)).2
      = [⟨.POST,
          strReplace (build_request_api ⟨"https://api.dify.ai"⟩ .ChatMessagesStop)
            "\x7btask_id\x7d" "t1",
          .obj [("task_id", .str ""), ("user", .str "u1")]⟩] :=
  (c8_stop_request_shape ⟨"https://api.dify.ai"⟩ ⟨"t1", "u1"⟩
    (fun _ => ⟨200, .malformed ""⟩) (by decide)).1

/-- C9 (code bug): a rename request carrying neither a name nor the
auto-generate flag passes the code's validation and reaches the network,
while a request with the auto-generate flag and no name (legal per the
request type's own documentation) is the one the code rejects: the
validation condition is inverted. -/
theorem c9_renaming_validation_inverted :
    conversations_renaming ⟨"https://api.dify.ai"⟩ ⟨"c1", none, false, "u1"⟩
        (fun _ => ⟨200, .val (.obj [("result", .str "success")])⟩)
      = (.ok ⟨"success"⟩,
         [⟨.POST, "https://api.dify.ai/v1/conversations/c1/name",
           .obj [("conversation_id", .str ""), ("name", .null),
                 ("auto_generate", .bool false), ("user", .str "u1")]⟩])
    ∧ conversations_renaming ⟨"https://api.dify.ai"⟩ ⟨"c1", none, true, "u1"⟩
        (fun _ => ⟨200, .val (.obj [("result", .str "success")])⟩)
      = (.error (.validation "ConversationsRenameRequest.Name Illegal"), []) :=
  ⟨rfl, rfl⟩

/-- C10 counterexample: a `message` payload carrying the variant's named
fields plus one unrecognized field, but no message-base fields, fails to
deserialize: the unrecognized field makes the flattened
`Option<MessageBase>` engage, and its required `message_id` is missing. -/
theorem c10_extra_field_without_base_counterexample :
    SseMessageEvent.fromJson (.obj
      [("event", .str "message"), ("id", .str "m1"), ("task_id", .str "t1"),
       ("answer", .str "Hi"), ("foo", .str "bar")])
      = .error "missing field message_id" := rfl

/-- One step of `removeKeys`. -/
theorem removeKeys_cons (k : String) (v : Json) (l : JObj) (ks : List String) :
    removeKeys ((k, v) :: l) ks
      = if ks.contains k then removeKeys l ks else (k, v) :: removeKeys l ks := by
  by_cases h : ks.contains k <;> simp [removeKeys, List.filter_cons, h]

/-- Fields whose keys avoid `ks` are untouched by `removeKeys`. -/
theorem removeKeys_eq_self {l : JObj} {ks : List String}
    (h : ∀ kv ∈ l, kv.1 ∉ ks) : removeKeys l ks = l := by
  rw [removeKeys]
  refine List.filter_eq_self.mpr fun kv hkv => ?_
  simpa using h kv hkv

/-- `removeKeys` distributes over appended field lists. -/
theorem removeKeys_append (xs ys : JObj) (ks : List String) :
    removeKeys (xs ++ ys) ks = removeKeys xs ks ++ removeKeys ys ks := by
  simp [removeKeys, List.filter_append]

/-- A key absent from every field of an object is not found by lookup. -/
theorem lookup_none_of_keys_ne {l : JObj} {k : String}
    (h : ∀ kv ∈ l, kv.1 ≠ k) : List.lookup k l = none := by
  simp only [List.lookup_eq_none_iff]
  intro kv hkv
  simpa using fun hk => h kv hkv hk.symm

/-- C10 (amended): a `message` payload with the variant's named fields
`id`, `task_id`, `answer` tolerates arbitrary additional string-keyed
fields provided the message-base fields `message_id` and `created_at`
are among them: the base fields populate the flattened `MessageBase` and
the remaining unrecognized fields are captured in the `extra` map.  (When
additional fields are present without the base fields, decoding fails,
as the counterexample shows; an unknown discriminator always fails.) -/
theorem c10_amended_extras_with_base_captured
    (i t a m : String) (c : Nat) (hc : c < 18446744073709551616)
    (extras : JObj)
    (hex : ∀ kv ∈ extras,
      kv.1 ∉ ["event", "id", "task_id", "answer",
              "message_id", "conversation_id", "created_at"]) :
    SseMessageEvent.fromJson (.obj
      ([("event", .str "message"), ("id", .str i), ("task_id", .str t),
        ("answer", .str a), ("message_id", .str m),
        ("created_at", .num (c : Int))] ++ extras))
      = .ok (.Message (some ⟨m, none, c⟩) i t a extras) := by
  have hex1 : removeKeys extras ["event"] = extras :=
    removeKeys_eq_self fun kv hkv => by
      have := hex kv hkv; simp_all
  have hex2 : removeKeys extras ["id", "task_id", "answer"] = extras :=
    removeKeys_eq_self fun kv hkv => by
      have := hex kv hkv; simp_all
  have hex3 : removeKeys extras ["message_id", "conversation_id", "created_at"] = extras :=
    removeKeys_eq_self fun kv hkv => by
      have := hex kv hkv; simp_all
  have hcid : List.lookup "conversation_id" extras = none :=
    lookup_none_of_keys_ne fun kv hkv => by
      have := hex kv hkv; simp_all
  have h0c : (0:Int) ≤ (c:Int) := Int.natCast_nonneg c
  have hcc : (c:Int) < 18446744073709551616 := by exact_mod_cast hc
  simp only [SseMessageEvent.fromJson]
  simp [jlookup, List.lookup]
  simp [removeKeys_cons, hex1]
  simp [parseVariant, parseMessageVariant, getStr, jlookup, List.lookup,
        Except.bind, removeKeys_cons, hex2]
  simp [parseOptBase, parseMessageBase, getStr, getOptStr, getU64, jlookup,
        List.lookup, hcid, h0c, hcc, messageBaseKeys, hex3, Except.bind,
        Int.toNat_natCast]
  rfl

theorem c10_amended_extras_with_base_captured_witness :
    SseMessageEvent.fromJson (.obj
      [("event", .str "message"), ("id", .str "m1"), ("task_id", .str "t1"),
       ("answer", .str "Hi"), ("message_id", .str "mid"), ("created_at", .num 5),
       ("foo", .str "bar")])
      = .ok (.Message (some ⟨"mid", none, 5⟩) "m1" "t1" "Hi" [("foo", .str "bar")]) :=
  c10_amended_extras_with_base_captured "m1" "t1" "Hi" "mid" 5 (by decide)
    [("foo", .str "bar")] (by decide)

end Dify
